import Mathlib

/-!
Shallow embedding of the tolkam react-modal component (src/index.tsx) and
proofs about its lifecycle machinery: the four-stage lifecycle machine driven
by the show prop, the animation rendezvous counter shared by the body and
backdrop parts, the process-wide parent-to-open-modal-ids registry, the
scroll lock with owner tracking, focus memory, document event wiring and the
render projection.

Machine integers of the source are JavaScript numbers used only for small
counters and list indices; they are embedded as Int (the animated counter,
which the source can drive below zero) and Nat (ids, list lengths).
-/

namespace ReactModal

/-- Lifecycle stages of a modal instance, the four string constants of
source lines 13-16. -/
inductive Stage
  | OPENING
  | OPENED
  | CLOSING
  | CLOSED
  deriving DecidableEq

open Stage

/-- The configuration flags of IProps that the lifecycle machine reads
(source lines 439-487); class names and callbacks carry no lifecycle
state and are omitted. -/
structure Cfg where
  noBackdrop : Bool
  withDocumentClicks : Bool
  noFocus : Bool
  allowScroll : Bool
  deriving DecidableEq

/-- Number of animated parts mounted by render while the stage is not
CLOSED: the body, plus the backdrop unless noBackdrop is set
(source lines 142-153). -/
def partsCount (cfg : Cfg) : Nat :=
  if cfg.noBackdrop then 1 else 2

/-- The expected rendezvous count read by onOpening, source line 187:
noBackdrop ? 1 : 2.  Int because the source counter is a JavaScript
number that onClosing can drive below zero. -/
def expectedCount (cfg : Cfg) : Int :=
  if cfg.noBackdrop then 1 else 2

/-- The stage computed by componentDidUpdate from the current show prop and
the current stage (source lines 100-108): show while CLOSED starts OPENING,
hide while OPENED starts CLOSING, every other combination keeps the stage. -/
def componentDidUpdate (curShow : Bool) (curStage : Stage) : Stage :=
  if curShow = true ∧ curStage = CLOSED then OPENING
  else if curShow = false ∧ curStage = OPENED then CLOSING
  else curStage

/-! ## Registry

The module-level map from a parent element to the ids of the modals
currently open under it (source lines 24-28 and 391-436).  Parents and ids
are embedded as Nat; the map is an association list with at most one entry
per parent. -/

/-- The parents map: association list from a parent to its modal ids,
front of the id list = topmost. -/
abbrev Registry := List (Nat × List Nat)

/-- Lookup of a parent key, Map.prototype.get. -/
def registryGet : Registry → Nat → Option (List Nat)
  | [], _ => none
  | (q, ids) :: t, p => if q = p then some ids else registryGet t p

/-- Update of a parent key, Map.prototype.set (also models in-place mutation
of the stored array). -/
def registrySet : Registry → Nat → List Nat → Registry
  | [], p, ids => [(p, ids)]
  | (q, ids0) :: t, p, ids =>
      if q = p then (q, ids) :: t else (q, ids0) :: registrySet t p ids

/-- Removal of a parent key, Map.prototype.delete. -/
def registryErase : Registry → Nat → Registry
  | [], _ => []
  | (q, ids0) :: t, p => if q = p then t else (q, ids0) :: registryErase t p

/-- Array.prototype.indexOf: index of the first occurrence, -1 if absent. -/
def jsIndexOf : List Nat → Nat → Int
  | [], _ => -1
  | a :: t, i =>
      if a = i then 0
      else
        let r := jsIndexOf t i
        if r = -1 then -1 else r + 1

/-- The actual start index used by Array.prototype.splice: a negative start
counts back from the end, clamped to 0; a non-negative start is clamped to
the length. -/
def spliceIndex (len : Nat) (start : Int) : Nat :=
  if start < 0 then len - start.natAbs else min start.toNat len

/-- Array.prototype.splice with delete count 1: remove the element at the
actual start index, if any. -/
def spliceRemoveOne (l : List Nat) (start : Int) : List Nat :=
  let k := spliceIndex l.length start
  l.take k ++ l.drop (k + 1)

/-- register (source lines 396-404): insert the id at the front of the
parent's list, creating the list when absent. -/
def register (r : Registry) (p : Nat) (i : Nat) : Registry :=
  match registryGet r p with
  | none => registrySet r p [i]
  | some ids => registrySet r p (i :: ids)

/-- unregister (source lines 411-424): if the parent has a list, splice one
element out at indexOf(id) and delete the parent key when the list becomes
empty.  Note that when the id is absent, indexOf yields -1 and splice
removes the last element of the list. -/
def unregister (r : Registry) (p : Nat) (i : Nat) : Registry :=
  match registryGet r p with
  | none => r
  | some ids =>
      let ids2 := spliceRemoveOne ids (jsIndexOf ids i)
      if ids2.length = 0 then registryErase r p else registrySet r p ids2

/-- isOnTop (source lines 431-436): the parent has a list and its element
at index 0 is this id (indexing an empty array yields undefined, never
equal to an id, hence the Option head). -/
def isOnTop (r : Registry) (p : Nat) (i : Nat) : Bool :=
  match registryGet r p with
  | none => false
  | some ids => decide (ids.head? = some i)

/-- Observable outcome of the onKeydown handler (source lines 260-267):
whether preventDefault was called and whether onCloseRequest was invoked.
Both happen exactly when the key is Escape and the instance is on top. -/
def onKeydown (r : Registry) (p : Nat) (i : Nat) (key : String) : Bool × Bool :=
  if key = "Escape" ∧ isOnTop r p i = true then (true, true) else (false, false)

/-! ## Scroll lock

disableScroll/restoreScroll (source lines 294-333) act on the computed
target element (the document root when the parent is body, else the parent
itself); the embedding works directly on that target's state.  The external
style utility of the collaborating library computes some scroll-suppressing
inline style and returns the previous cssText; it is abstracted by the
lockStyle argument. -/

/-- State of the scroll target: its inline style attribute (none = the
attribute is absent), and the two dataset keys modalStyleCache and
scrollDisabledBy. -/
structure ScrollTarget where
  style : Option String
  cacheStyle : Option String
  cacheOwner : Option Nat
  deriving DecidableEq

/-- Reading style.cssText: the empty string when the attribute is absent. -/
def styleText : Option String → String
  | none => ""
  | some s => s

/-- disableScroll (source lines 294-307): no-op when allowScroll is set or a
style cache is already recorded; otherwise apply the computed lock style and
record the previous cssText and the owner id. -/
def disableScroll (allowScroll : Bool) (id : Nat) (lockStyle : String)
    (c : ScrollTarget) : ScrollTarget :=
  if allowScroll then c
  else
    match c.cacheStyle with
    | some _ => c
    | none =>
        { style := some lockStyle
          cacheStyle := some (styleText c.style)
          cacheOwner := some id }

/-- restoreScroll (source lines 314-333): return unchanged unless the
recorded owner is this id; otherwise write the cached cssText back and drop
both dataset keys, then remove the style attribute entirely when the
resulting cssText is empty. -/
def restoreScroll (id : Nat) (c : ScrollTarget) : ScrollTarget :=
  if c.cacheOwner ≠ some id then c
  else
    let c1 :=
      match c.cacheStyle with
      | some cached => { style := some cached, cacheStyle := none, cacheOwner := none }
      | none => c
    if styleText c1.style = "" then { c1 with style := none } else c1

/-! ## Focus memory -/

/-- Focus-relevant state: the document's active element and the instance's
prevFocused field, elements embedded as Nat. -/
structure FocusState where
  activeElement : Option Nat
  prevFocused : Option Nat
  deriving DecidableEq

/-- storeFocus (source lines 340-346): record the active element in
prevFocused, then focus the portal's root element when it exists. -/
def storeFocus (rootElement : Option Nat) (f : FocusState) : FocusState :=
  { prevFocused := f.activeElement
    activeElement :=
      match rootElement with
      | some r => some r
      | none => f.activeElement }

/-- restoreFocus (source lines 353-359): focus prevFocused when it is
recorded and still exposes a focus method; prevFocused itself is never
written. -/
def restoreFocus (canFocus : Nat → Bool) (f : FocusState) : FocusState :=
  match f.prevFocused with
  | some e => if canFocus e then { f with activeElement := some e } else f
  | none => f

/-! ## Render projection -/

/-- The animation-aware props handed to each Animatable part
(source lines 135-140); showProp embeds the source prop named show. -/
structure AnimProps where
  showProp : Bool
  animateAppear : Bool
  deriving DecidableEq

/-- What render mounts when it does not return null: the body part and,
unless noBackdrop, the backdrop part. -/
structure RenderOut where
  bodyNode : AnimProps
  backdropNode : Option AnimProps
  deriving DecidableEq

/-- render (source lines 120-156): null when CLOSED; otherwise the body and
the optional backdrop, both carrying show = (stage is not CLOSING) and
animateAppear. -/
def render (noBackdrop : Bool) (stage : Stage) : Option RenderOut :=
  if stage = CLOSED then none
  else
    some
      { bodyNode := { showProp := decide (stage ≠ CLOSING), animateAppear := true }
        backdropNode :=
          if noBackdrop then none
          else some { showProp := decide (stage ≠ CLOSING), animateAppear := true } }

/-! ## The lifecycle system

One modal instance together with its animated parts, as a transition system.
The observable state joins the component state (stage), the animated counter
field, how many mounted parts are currently running an enter or exit
animation, and flags recording the side effects performed at the stage
edges.  Events are componentDidUpdate observations of the show prop and the
completion callbacks the Animatable parts fire: onEntered (enter direction,
wired to onOpening) and onCompleted (exit direction, wired to onClosing),
each fired once per part per transition, which is why a signal is only
enabled while a part is actually animating in that direction. -/

/-- Observable state of one instance and its mounted parts. -/
structure MState where
  stage : Stage
  animated : Int
  pendingOpen : Nat
  pendingClose : Nat
  keydownAttached : Bool
  clickAttached : Bool
  beforeOpenRuns : Nat
  onOpenRuns : Nat
  onCloseRuns : Nat
  scrollLocked : Bool
  registered : Bool
  focusStored : Bool
  deriving DecidableEq

/-- Side effects of beforeOpen (source lines 163-168): the user callback,
then disableScroll, which locks the parent unless allowScroll is set. -/
def beforeOpenEff (cfg : Cfg) (s : MState) : MState :=
  { s with
    beforeOpenRuns := s.beforeOpenRuns + 1
    scrollLocked := if cfg.allowScroll then s.scrollLocked else true }

/-- Side effects of onOpen (source lines 214-226): register, addDocEvents
(keydown always, click only with withDocumentClicks, source lines 366-374),
storeFocus unless noFocus, then the onOpen callback. -/
def onOpenEff (cfg : Cfg) (s : MState) : MState :=
  { s with
    registered := true
    keydownAttached := true
    clickAttached := cfg.withDocumentClicks || s.clickAttached
    focusStored := if cfg.noFocus then s.focusStored else true
    onOpenRuns := s.onOpenRuns + 1 }

/-- Side effects of onClose (source lines 233-243): unregister,
removeDocEvents, restoreFocus, restoreScroll, then the onClose callback. -/
def onCloseEff (s : MState) : MState :=
  { s with
    registered := false
    keydownAttached := false
    clickAttached := false
    scrollLocked := false
    onCloseRuns := s.onCloseRuns + 1 }

/-- Events driving one instance. -/
inductive Ev
  | update (curShow : Bool)
  | sigOpen
  | sigClose
  deriving DecidableEq

/-- One step of the system.  update applies the componentDidUpdate rule
(source lines 100-108); entering OPENING runs beforeOpen and mounts the
parts with their enter animations running, entering CLOSING flips the
mounted parts to their exit animations (render passes show = stage is not
CLOSING to each part).  sigOpen is onOpening (source lines 185-193) and
sigClose is onClosing (source lines 200-207), enabled only while a part is
animating in that direction. -/
def step (cfg : Cfg) (s : MState) : Ev → Option MState
  | Ev.update b =>
      if b = true ∧ s.stage = CLOSED then
        some (beforeOpenEff cfg { s with stage := OPENING, pendingOpen := partsCount cfg })
      else if b = false ∧ s.stage = OPENED then
        some { s with stage := CLOSING, pendingClose := partsCount cfg, pendingOpen := 0 }
      else some s
  | Ev.sigOpen =>
      if s.pendingOpen = 0 then none
      else
        let s1 := { s with pendingOpen := s.pendingOpen - 1, animated := s.animated + 1 }
        if s1.animated = expectedCount cfg then some (onOpenEff cfg { s1 with stage := OPENED })
        else some s1
  | Ev.sigClose =>
      if s.pendingClose = 0 then none
      else
        let s1 := { s with pendingClose := s.pendingClose - 1, animated := s.animated - 1 }
        if s1.animated = 0 then some (onCloseEff { s1 with stage := CLOSED })
        else some s1

/-- The constructor (source lines 82-95): initial stage OPENED when
constructed with show = true, CLOSED otherwise; a non-CLOSED initial stage
mounts the parts with animateAppear, so their enter animations start at
once. -/
def constructorState (cfg : Cfg) (curShow : Bool) : MState :=
  { stage := if curShow then OPENED else CLOSED
    animated := 0
    pendingOpen := if curShow then partsCount cfg else 0
    pendingClose := 0
    keydownAttached := false
    clickAttached := false
    beforeOpenRuns := 0
    onOpenRuns := 0
    onCloseRuns := 0
    scrollLocked := false
    registered := false
    focusStored := false }

/-- States reachable from init by steps whose events satisfy allowed. -/
inductive ReachVia (cfg : Cfg) (allowed : Ev → Prop) (init : MState) : MState → Prop
  | refl : ReachVia cfg allowed init init
  | tail {s s' : MState} {e : Ev} :
      ReachVia cfg allowed init s → allowed e → step cfg s e = some s' →
      ReachVia cfg allowed init s'

/-- States reachable from init under arbitrary events. -/
abbrev Reach (cfg : Cfg) (init s : MState) : Prop :=
  ReachVia cfg (fun _ => True) init s

/-- Run a list of events from a state, failing when a disabled signal is
delivered. -/
def run (cfg : Cfg) : MState → List Ev → Option MState
  | s, [] => some s
  | s, e :: es =>
      match step cfg s e with
      | none => none
      | some s1 => run cfg s1 es

/-- Inductive invariant of the lifecycle system started closed: the
rendezvous counter agrees with the remaining animating parts stage by
stage, and the document listeners are attached exactly in OPENED and
CLOSING. -/
def LifeInv (cfg : Cfg) (s : MState) : Prop :=
  s.keydownAttached = (decide (s.stage = OPENED) || decide (s.stage = CLOSING))
  ∧ s.clickAttached
      = (cfg.withDocumentClicks && (decide (s.stage = OPENED) || decide (s.stage = CLOSING)))
  ∧ (s.stage = CLOSED → s.animated = 0 ∧ s.pendingOpen = 0 ∧ s.pendingClose = 0)
  ∧ (s.stage = OPENING →
      s.pendingClose = 0 ∧ 0 ≤ s.animated ∧ s.animated < expectedCount cfg
      ∧ s.animated + s.pendingOpen = expectedCount cfg)
  ∧ (s.stage = OPENED →
      s.animated = expectedCount cfg ∧ s.pendingOpen = 0 ∧ s.pendingClose = 0)
  ∧ (s.stage = CLOSING →
      s.pendingOpen = 0 ∧ 0 < s.animated ∧ s.animated ≤ expectedCount cfg
      ∧ s.animated = s.pendingClose)

/-- Inductive invariant of an instance constructed with show = true, as long
as the show prop is not observed false: the stage stays OPENED, beforeOpen
and the scroll lock never run, and the OPENED-edge effects run exactly when
the appear rendezvous completes. -/
def ShowMountInv (cfg : Cfg) (s : MState) : Prop :=
  s.stage = OPENED
  ∧ s.beforeOpenRuns = 0
  ∧ s.scrollLocked = false
  ∧ 0 ≤ s.animated ∧ s.animated ≤ expectedCount cfg
  ∧ s.animated + s.pendingOpen = expectedCount cfg
  ∧ s.pendingClose = 0
  ∧ s.registered = decide (s.animated = expectedCount cfg)
  ∧ s.keydownAttached = decide (s.animated = expectedCount cfg)
  ∧ s.clickAttached = (cfg.withDocumentClicks && decide (s.animated = expectedCount cfg))
  ∧ s.focusStored = (!cfg.noFocus && decide (s.animated = expectedCount cfg))
  ∧ s.onOpenRuns = (if s.animated = expectedCount cfg then 1 else 0)

/-- A configuration with a backdrop and document clicks opted in, used for
concrete evaluations. -/
def cfgA : Cfg :=
  { noBackdrop := false, withDocumentClicks := true, noFocus := false, allowScroll := false }

/-- A configuration with noBackdrop set, used for concrete evaluations. -/
def cfgNB : Cfg :=
  { noBackdrop := true, withDocumentClicks := false, noFocus := false, allowScroll := false }

/-- The state one update-with-show step after mounting closed under cfgA:
stage OPENING, both parts entering, beforeOpen ran and locked scroll, no
document listeners attached yet. -/
def sOpeningA : MState :=
  { stage := OPENING, animated := 0, pendingOpen := 2, pendingClose := 0
    keydownAttached := false, clickAttached := false
    beforeOpenRuns := 1, onOpenRuns := 0, onCloseRuns := 0
    scrollLocked := true, registered := false, focusStored := false }

/-- The state of a cfgNB instance mounted with show = true after its single
appear animation completed: OPENED with the onOpen effects done and the
scroll never locked. -/
def sDoneNB : MState :=
  { stage := OPENED, animated := 1, pendingOpen := 0, pendingClose := 0
    keydownAttached := true, clickAttached := false
    beforeOpenRuns := 0, onOpenRuns := 1, onCloseRuns := 0
    scrollLocked := false, registered := true, focusStored := true }

/-! ## Helper lemmas -/

theorem expectedCount_pos (cfg : Cfg) : 0 < expectedCount cfg := by
  unfold expectedCount
  split <;> decide

theorem partsCount_cast (cfg : Cfg) : (partsCount cfg : Int) = expectedCount cfg := by
  unfold partsCount expectedCount
  by_cases h : cfg.noBackdrop = true <;> simp [h]

theorem isOnTop_iff (r : Registry) (p i : Nat) :
    isOnTop r p i = true ↔ (registryGet r p).bind List.head? = some i := by
  rcases h : registryGet r p with _ | ids <;> simp [isOnTop, h]

theorem lifeInv_init (cfg : Cfg) : LifeInv cfg (constructorState cfg false) := by
  simp [LifeInv, constructorState]

theorem lifeInv_step {cfg : Cfg} {s s' : MState} {e : Ev}
    (hI : LifeInv cfg s) (hs : step cfg s e = some s') : LifeInv cfg s' := by
  have hpos := expectedCount_pos cfg
  have hcast := partsCount_cast cfg
  obtain ⟨h1, h2, hC, hO, hOp, hCl⟩ := hI
  cases e with
  | update b =>
      simp only [step] at hs
      split at hs
      · rename_i hb
        obtain ⟨hC1, hC2, hC3⟩ := hC hb.2
        injection hs with hs
        subst hs
        refine ⟨?_, ?_, ?_, ?_, ?_, ?_⟩ <;>
          simp_all [LifeInv, beforeOpenEff]
      · split at hs
        · rename_i hb0 hb
          obtain ⟨hA1, hA2, hA3⟩ := hOp hb.2
          injection hs with hs
          subst hs
          refine ⟨?_, ?_, ?_, ?_, ?_, ?_⟩ <;>
            simp_all [LifeInv]
        · injection hs with hs
          subst hs
          exact ⟨h1, h2, hC, hO, hOp, hCl⟩
  | sigOpen =>
      simp only [step] at hs
      split at hs
      · exact absurd hs (by simp)
      · rename_i hp
        split at hs <;> injection hs with hs <;> subst hs <;>
          cases hstage : s.stage
        case CLOSED => exact absurd (hC hstage).2.1 hp
        case OPENING =>
          rename_i ha
          obtain ⟨g1, g2, g3, g4⟩ := hO hstage
          refine ⟨?_, ?_, ?_, ?_, ?_, ?_⟩ <;>
            simp_all [onOpenEff] <;> omega
        case OPENED => exact absurd (hOp hstage).2.1 hp
        case CLOSING => exact absurd (hCl hstage).1 hp
        case CLOSED => exact absurd (hC hstage).2.1 hp
        case OPENING =>
          rename_i ha
          obtain ⟨g1, g2, g3, g4⟩ := hO hstage
          refine ⟨?_, ?_, ?_, ?_, ?_, ?_⟩ <;>
            simp_all <;> omega
        case OPENED => exact absurd (hOp hstage).2.1 hp
        case CLOSING => exact absurd (hCl hstage).1 hp
  | sigClose =>
      simp only [step] at hs
      split at hs
      · exact absurd hs (by simp)
      · rename_i hp
        split at hs <;> injection hs with hs <;> subst hs <;>
          cases hstage : s.stage
        case CLOSED => exact absurd (hC hstage).2.2 hp
        case OPENING => exact absurd (hO hstage).1 hp
        case OPENED => exact absurd (hOp hstage).2.2 hp
        case CLOSING =>
          rename_i ha
          obtain ⟨g1, g2, g3, g4⟩ := hCl hstage
          refine ⟨?_, ?_, ?_, ?_, ?_, ?_⟩ <;>
            simp_all [onCloseEff] <;> omega
        case CLOSED => exact absurd (hC hstage).2.2 hp
        case OPENING => exact absurd (hO hstage).1 hp
        case OPENED => exact absurd (hOp hstage).2.2 hp
        case CLOSING =>
          rename_i ha
          obtain ⟨g1, g2, g3, g4⟩ := hCl hstage
          refine ⟨?_, ?_, ?_, ?_, ?_, ?_⟩ <;>
            simp_all <;> omega

theorem lifeInv_reach {cfg : Cfg} {s : MState}
    (h : Reach cfg (constructorState cfg false) s) : LifeInv cfg s := by
  induction h with
  | refl => exact lifeInv_init cfg
  | tail hr he hstep ih => exact lifeInv_step ih hstep

theorem showMountInv_init (cfg : Cfg) : ShowMountInv cfg (constructorState cfg true) := by
  have hpos := expectedCount_pos cfg
  have hcast := partsCount_cast cfg
  have hne : ¬((0 : Int) = expectedCount cfg) := by omega
  refine ⟨rfl, rfl, rfl, ?_, ?_, ?_, rfl, ?_, ?_, ?_, ?_, ?_⟩ <;>
    simp_all [constructorState] <;> omega

theorem showMountInv_step {cfg : Cfg} {s s' : MState} {e : Ev}
    (hI : ShowMountInv cfg s) (hne : e ≠ Ev.update false)
    (hs : step cfg s e = some s') : ShowMountInv cfg s' := by
  have hpos := expectedCount_pos cfg
  have hcast := partsCount_cast cfg
  obtain ⟨g1, g2, g3, g4, g5, g6, g7, g8, g9, g10, g11, g12⟩ := hI
  cases e with
  | update b =>
      cases b
      · exact absurd rfl hne
      · simp only [step, g1] at hs
        simp at hs
        subst hs
        exact ⟨g1, g2, g3, g4, g5, g6, g7, g8, g9, g10, g11, g12⟩
  | sigOpen =>
      simp only [step] at hs
      split at hs
      · exact absurd hs (by simp)
      · rename_i hp
        have hlt : s.animated < expectedCount cfg := by omega
        have hdec : decide (s.animated = expectedCount cfg) = false := by
          simp
          omega
        split at hs <;> injection hs with hs <;> subst hs
        · rename_i ha
          refine ⟨rfl, g2, g3, ?_, ?_, ?_, g7, ?_, ?_, ?_, ?_, ?_⟩ <;>
            simp_all [onOpenEff] <;> omega
        · rename_i ha
          have hdec2 : decide (s.animated + 1 = expectedCount cfg) = false := by
            simp
            omega
          refine ⟨g1, g2, g3, ?_, ?_, ?_, g7, ?_, ?_, ?_, ?_, ?_⟩ <;>
            simp_all <;> omega
  | sigClose =>
      simp only [step, g7] at hs
      simp at hs

theorem showMountInv_reach {cfg : Cfg} {s : MState}
    (h : ReachVia cfg (fun e => e ≠ Ev.update false) (constructorState cfg true) s) :
    ShowMountInv cfg s := by
  induction h with
  | refl => exact showMountInv_init cfg
  | tail hr he hstep ih => exact showMountInv_step ih he hstep

/-! ## Claim theorems -/

/-- C1: on every observation of the show-intent flag, show while CLOSED
transitions to OPENING, hide while OPENED transitions to CLOSING, and every
other combination (enumerated below, in particular flipping show while
OPENING or CLOSING) leaves the state unchanged; the lifecycle system's
update step realises exactly the componentDidUpdate table. -/
theorem C1_show_intent_transition_table (cfg : Cfg) (s : MState) (b : Bool) :
    (step cfg s (Ev.update b)).map MState.stage = some (componentDidUpdate b s.stage)
    ∧ componentDidUpdate true CLOSED = OPENING
    ∧ componentDidUpdate false OPENED = CLOSING
    ∧ componentDidUpdate true OPENING = OPENING
    ∧ componentDidUpdate false OPENING = OPENING
    ∧ componentDidUpdate true CLOSING = CLOSING
    ∧ componentDidUpdate false CLOSING = CLOSING
    ∧ componentDidUpdate true OPENED = OPENED
    ∧ componentDidUpdate false CLOSED = CLOSED
    ∧ step cfg { s with stage := OPENING } (Ev.update b) = some { s with stage := OPENING }
    ∧ step cfg { s with stage := CLOSING } (Ev.update b) = some { s with stage := CLOSING } := by
  refine ⟨?_, by decide, by decide, by decide, by decide, by decide, by decide,
    by decide, by decide, ?_, ?_⟩
  · unfold step componentDidUpdate
    by_cases h1 : b = true ∧ s.stage = CLOSED
    · simp [h1, beforeOpenEff]
    · by_cases h2 : b = false ∧ s.stage = OPENED <;> simp [h1, h2]
  · cases b <;> simp [step]
  · cases b <;> simp [step]

/-- C2: an enabled opening-direction signal increments the animated counter
by one and sets the stage to OPENED exactly when the incremented counter
reaches the expected count, which is 1 with noBackdrop and 2 otherwise; an
enabled closing-direction signal decrements the counter by one and sets the
stage to CLOSED exactly when the decremented counter reaches 0; and a
noBackdrop instance opened from CLOSED reaches OPENED after exactly one
completion signal. -/
theorem C2_rendezvous_signals (cfg : Cfg) (s : MState) (k : Nat) :
    (step cfg { s with pendingOpen := k + 1 } Ev.sigOpen).map MState.animated
        = some (s.animated + 1)
    ∧ (step cfg { s with pendingOpen := k + 1 } Ev.sigOpen).map MState.stage
        = some (if s.animated + 1 = expectedCount cfg then OPENED else s.stage)
    ∧ (step cfg { s with pendingClose := k + 1 } Ev.sigClose).map MState.animated
        = some (s.animated - 1)
    ∧ (step cfg { s with pendingClose := k + 1 } Ev.sigClose).map MState.stage
        = some (if s.animated - 1 = 0 then CLOSED else s.stage)
    ∧ expectedCount cfg = (if cfg.noBackdrop = true then 1 else 2)
    ∧ (run cfgNB (constructorState cfgNB false) [Ev.update true, Ev.sigOpen]).map MState.stage
        = some OPENED := by
  refine ⟨?_, ?_, ?_, ?_, by rfl, by decide⟩ <;>
    (unfold step
     by_cases h : s.animated + 1 = expectedCount cfg <;>
       by_cases h2 : s.animated - 1 = 0 <;>
         simp [h, h2, onOpenEff, onCloseEff])

/-- C3 evaluation: the close sequence is not idempotent on the registry.
With modal 2 still open under parent 0 after modal 1 was already
deregistered, a second deregistration of modal 1 (the unmount-cleanup
colliding with the natural close completion) hits indexOf = -1, so splice
removes the last element: modal 2's registration is destroyed and the
parent's entry disappears, so modal 2 is no longer on top. -/
theorem C3_double_unregister_eval :
    unregister [(0, [2, 1])] 0 1 = [(0, [2])]
    ∧ unregister [(0, [2])] 0 1 = []
    ∧ unregister (unregister [(0, [2, 1])] 0 1) 0 1 = []
    ∧ isOnTop (unregister [(0, [2, 1])] 0 1) 0 2 = true
    ∧ isOnTop (unregister (unregister [(0, [2, 1])] 0 1) 0 1) 0 2 = false := by
  decide

/-- C5: once instance a has acquired the scroll lock on an unlocked target
(caching the target's previous cssText and recording a as owner), a release
by any b different from a leaves the style, the cached string and the owner
untouched, while a release by a restores exactly the captured cssText,
removing the style attribute entirely when that text is empty, and clears
both the cache and the owner; a release by a non-owner is a no-op on any
target state. -/
theorem C5_scroll_lock_release (a b d : Nat) (lock : String) (style0 : Option String)
    (cs : Option String) (st0 : Option String) :
    disableScroll false a lock { style := style0, cacheStyle := none, cacheOwner := none }
      = { style := some lock, cacheStyle := some (styleText style0), cacheOwner := some a }
    ∧ restoreScroll b
        { style := some lock, cacheStyle := some (styleText style0), cacheOwner := some a }
      = (if b = a then
          { style := if styleText style0 = "" then none else some (styleText style0),
            cacheStyle := none, cacheOwner := none }
        else
          { style := some lock, cacheStyle := some (styleText style0), cacheOwner := some a })
    ∧ restoreScroll (a + d + 1) { style := st0, cacheStyle := cs, cacheOwner := some a }
      = { style := st0, cacheStyle := cs, cacheOwner := some a } := by
  refine ⟨rfl, ?_, ?_⟩
  · by_cases hb : b = a
    · subst hb
      simp [restoreScroll, styleText]
      split <;> simp_all
    · have hab : ¬a = b := fun h => hb h.symm
      simp [restoreScroll, hab, hb]
  · have hba : ¬a = a + d + 1 := by omega
    simp [restoreScroll, hba]

/-- C6: the keydown handler prevents default and requests close exactly when
the key is Escape and the container's registry list has this instance's id
at its front; in every other case, in particular for every non-topmost
instance on Escape, it does nothing. -/
theorem C6_escape_topmost (r : Registry) (p i : Nat) (key : String) :
    (onKeydown r p i key = (true, true)
      ↔ (key = "Escape" ∧ (registryGet r p).bind List.head? = some i))
    ∧ (onKeydown r p i key = (false, false)
      ↔ ¬(key = "Escape" ∧ (registryGet r p).bind List.head? = some i)) := by
  have hi := isOnTop_iff r p i
  unfold onKeydown
  by_cases h : key = "Escape" ∧ isOnTop r p i = true
  · rw [if_pos h]
    constructor
    · simp [h.1, hi.mp h.2]
    · simp [h.1, hi.mp h.2]
  · rw [if_neg h]
    have hnot : ¬(key = "Escape" ∧ (registryGet r p).bind List.head? = some i) := by
      intro hk
      exact h ⟨hk.1, hi.mpr hk.2⟩
    constructor
    · simp [hnot]
    · simp [hnot]

/-- Witness for C6 at a concrete registry: with parent 0 holding ids with 5
in front, Escape from id 5 prevents default and requests close. -/
theorem C6_escape_topmost_witness :
    onKeydown [(0, [5, 3])] 0 5 "Escape" = (true, true) :=
  (C6_escape_topmost [(0, [5, 3])] 0 5 "Escape").1.mpr ⟨rfl, rfl⟩

/-- C8 counterexample: the claim says the prevFocused record is cleared
back to null once focus is restored, but restoreFocus leaves the record in
place: restoring from a state whose record is element 1 moves focus to 1
and the record still holds element 1. -/
theorem C8_counterexample :
    restoreFocus (fun _ => true) { activeElement := some 0, prevFocused := some 1 }
      = { activeElement := some 1, prevFocused := some 1 }
    ∧ ¬(restoreFocus (fun _ => true)
        { activeElement := some 0, prevFocused := some 1 }).prevFocused = none := by
  constructor
  · rfl
  · intro h
    simp [restoreFocus] at h

/-- C8 amended: storeFocus records the active element and then moves focus
to the modal root when it exists; restoreFocus moves focus back to the
recorded element exactly when one is recorded and still focusable; but the
record is never cleared: prevFocused survives every restoreFocus call, so a
later close sequence can restore focus from the stale record. -/
theorem C8_focus_memory (root : Nat) (f : FocusState) (canFocus : Nat → Bool) (e : Nat) :
    storeFocus (some root) f = { prevFocused := f.activeElement, activeElement := some root }
    ∧ restoreFocus canFocus { f with prevFocused := some e }
      = (if canFocus e then
          { activeElement := some e, prevFocused := some e }
        else
          { f with prevFocused := some e })
    ∧ (restoreFocus canFocus f).prevFocused = f.prevFocused
    ∧ restoreFocus canFocus { f with prevFocused := none } = { f with prevFocused := none } := by
  refine ⟨rfl, ?_, ?_, ?_⟩
  · by_cases hc : canFocus e = true <;> simp [restoreFocus, hc]
  · rcases hf : f.prevFocused with _ | e0
    · simp [restoreFocus, hf]
    · by_cases hc : canFocus e0 = true <;> simp [restoreFocus, hf, hc]
  · simp [restoreFocus]

/-- C9: render produces nothing exactly when the stage is CLOSED; otherwise
it produces a body node and, unless noBackdrop, a backdrop node, both
carrying show = (stage is not CLOSING) and animateAppear, including for a
mount already in the OPENED stage. -/
theorem C9_render_projection (nb : Bool) (stage : Stage) :
    (render nb stage = none ↔ stage = CLOSED)
    ∧ (render nb stage).map (fun o => o.bodyNode.showProp)
        = (if stage = CLOSED then none else some (decide (stage ≠ CLOSING)))
    ∧ (render nb stage).map (fun o => o.bodyNode.animateAppear)
        = (if stage = CLOSED then none else some true)
    ∧ (render nb stage).map (fun o => o.backdropNode.map (fun bd => bd.showProp))
        = (if stage = CLOSED then none
          else some (if nb then none else some (decide (stage ≠ CLOSING))))
    ∧ (render nb stage).map (fun o => o.backdropNode.isNone)
        = (if stage = CLOSED then none else some nb)
    ∧ (render nb OPENED).map (fun o => o.bodyNode.showProp) = some true := by
  cases nb <;> cases stage <;> decide

/-- Witness for C9 at a concrete input: with a backdrop, a mount already in
the OPENED stage renders something and its body node is visible. -/
theorem C9_render_projection_witness :
    (render false OPENED = none ↔ OPENED = CLOSED)
    ∧ (render false OPENED).map (fun o => o.bodyNode.showProp) = some true :=
  ⟨(C9_render_projection false OPENED).1, (C9_render_projection false OPENED).2.2.2.2.2⟩

/-- C4: in every state reachable in the lifecycle of an instance mounted
closed, the animated counter stays between 0 and the expected count (1 with
noBackdrop, else 2); once OPENED or CLOSED is reached no further signal of
the finished direction is enabled; and an enabled opening (resp. closing)
signal moves the stage to OPENED (resp. CLOSED) exactly when it is the one
that takes the counter to the expected count (resp. to 0), so each
OPENING/CLOSING cycle fires its edge transition exactly once. -/
theorem C4_counter_invariant (cfg : Cfg) (s : MState)
    (h : Reach cfg (constructorState cfg false) s) :
    (0 ≤ s.animated ∧ s.animated ≤ expectedCount cfg)
    ∧ (s.stage = OPENED → s.pendingOpen = 0 ∧ s.pendingClose = 0)
    ∧ (s.stage = CLOSED → s.pendingOpen = 0 ∧ s.pendingClose = 0)
    ∧ (∀ s', step cfg s Ev.sigOpen = some s' →
        ((s'.stage = OPENED ∧ ¬s.stage = OPENED)
          ↔ (s.stage = OPENING ∧ s.animated + 1 = expectedCount cfg)))
    ∧ (∀ s', step cfg s Ev.sigClose = some s' →
        ((s'.stage = CLOSED ∧ ¬s.stage = CLOSED)
          ↔ (s.stage = CLOSING ∧ s.animated - 1 = 0))) := by
  have hpos := expectedCount_pos cfg
  obtain ⟨h1, h2, hC, hO, hOp, hCl⟩ := lifeInv_reach h
  refine ⟨?_, ?_, ?_, ?_, ?_⟩
  · cases hstage : s.stage
    case CLOSED => have := hC hstage; omega
    case OPENING => have := hO hstage; omega
    case OPENED => have := hOp hstage; omega
    case CLOSING => have := hCl hstage; omega
  · intro hstage
    exact ⟨(hOp hstage).2.1, (hOp hstage).2.2⟩
  · intro hstage
    exact ⟨(hC hstage).2.1, (hC hstage).2.2⟩
  · intro s' hs
    simp only [step] at hs
    split at hs
    · exact absurd hs (by simp)
    · rename_i hp
      have hstage : s.stage = OPENING := by
        cases hstage : s.stage
        case CLOSED => exact absurd (hC hstage).2.1 hp
        case OPENING => rfl
        case OPENED => exact absurd (hOp hstage).2.1 hp
        case CLOSING => exact absurd (hCl hstage).1 hp
      split at hs <;> injection hs with hs <;> subst hs <;>
        rename_i ha <;> simp_all [onOpenEff]
  · intro s' hs
    simp only [step] at hs
    split at hs
    · exact absurd hs (by simp)
    · rename_i hp
      have hstage : s.stage = CLOSING := by
        cases hstage : s.stage
        case CLOSED => exact absurd (hC hstage).2.2 hp
        case OPENING => exact absurd (hO hstage).1 hp
        case OPENED => exact absurd (hOp hstage).2.2 hp
        case CLOSING => rfl
      split at hs <;> injection hs with hs <;> subst hs <;>
        rename_i ha <;> simp_all [onCloseEff]

/-- Witness for C4 at a concrete reachable state: the mounted-closed
initial state of a backdrop configuration satisfies the counter bounds. -/
theorem C4_counter_invariant_witness :
    Reach cfgA (constructorState cfgA false) (constructorState cfgA false)
    ∧ (0 ≤ (constructorState cfgA false).animated
        ∧ (constructorState cfgA false).animated ≤ expectedCount cfgA) :=
  ⟨ReachVia.refl, (C4_counter_invariant cfgA (constructorState cfgA false) ReachVia.refl).1⟩

/-- C7 counterexample: the claim that the document listeners are attached
whenever the stage is not CLOSED fails during OPENING: one show=true update
from the mounted-closed state reaches a state whose stage is OPENING while
the keydown listener is not attached (addDocEvents only runs from onOpen,
at the OPENED edge). -/
theorem C7_counterexample :
    ReachVia cfgA (fun _ => True) (constructorState cfgA false) sOpeningA
    ∧ ¬sOpeningA.stage = CLOSED
    ∧ sOpeningA.keydownAttached = false
    ∧ sOpeningA.clickAttached = false := by
  have hstep : step cfgA (constructorState cfgA false) (Ev.update true) = some sOpeningA := by
    decide
  exact ⟨ReachVia.tail ReachVia.refl trivial hstep, by decide, by decide, by decide⟩

/-- C7 amended: in every reachable state of an instance mounted closed, the
document keydown listener is attached exactly while the stage is OPENED or
CLOSING (attached at the OPENED edge, removed at the CLOSED edge, hence not
yet attached during OPENING), the click listener additionally requires
withDocumentClicks, and no listener remains attached while the stage is
CLOSED. -/
theorem C7_doc_listeners (cfg : Cfg) (s : MState)
    (h : Reach cfg (constructorState cfg false) s) :
    (s.keydownAttached = true ↔ (s.stage = OPENED ∨ s.stage = CLOSING))
    ∧ (s.clickAttached = true
        ↔ (cfg.withDocumentClicks = true ∧ (s.stage = OPENED ∨ s.stage = CLOSING)))
    ∧ (s.stage = CLOSED → s.keydownAttached = false ∧ s.clickAttached = false) := by
  obtain ⟨h1, h2, _⟩ := lifeInv_reach h
  refine ⟨?_, ?_, ?_⟩
  · rw [h1]
    simp
  · rw [h2]
    simp
  · intro hstage
    rw [h1, h2, hstage]
    simp

/-- Witness for C7 at a concrete reachable state: after a full open under
cfgA (update, then both parts entered) the stage is OPENED and the keydown
listener is attached. -/
theorem C7_doc_listeners_witness :
    Reach cfgA (constructorState cfgA false) sOpeningA
    ∧ (sOpeningA.keydownAttached = true ↔ (sOpeningA.stage = OPENED ∨ sOpeningA.stage = CLOSING)) := by
  have hstep : step cfgA (constructorState cfgA false) (Ev.update true) = some sOpeningA := by
    decide
  have hr : Reach cfgA (constructorState cfgA false) sOpeningA :=
    ReachVia.tail ReachVia.refl trivial hstep
  exact ⟨hr, (C7_doc_listeners cfgA sOpeningA hr).1⟩

/-- C10: an instance constructed with show = true starts directly in OPENED
(not OPENING), and in every state reachable without observing show = false,
beforeOpen has never run and the scroll lock was never acquired, while the
OPENED-edge effects (registration, keydown wiring, focus capture unless
noFocus, a single onOpen) have run exactly when the appear rendezvous is
complete. -/
theorem C10_show_on_mount (cfg : Cfg) (s : MState)
    (h : ReachVia cfg (fun e => ¬e = Ev.update false) (constructorState cfg true) s) :
    (constructorState cfg true).stage = OPENED
    ∧ s.stage = OPENED
    ∧ s.beforeOpenRuns = 0
    ∧ s.scrollLocked = false
    ∧ s.onOpenRuns = (if s.animated = expectedCount cfg then 1 else 0)
    ∧ (s.pendingOpen = 0 →
        s.registered = true ∧ s.keydownAttached = true ∧ s.onOpenRuns = 1
        ∧ (cfg.noFocus = false → s.focusStored = true)) := by
  obtain ⟨g1, g2, g3, g4, g5, g6, g7, g8, g9, g10, g11, g12⟩ := showMountInv_reach h
  refine ⟨rfl, g1, g2, g3, g12, ?_⟩
  intro hp
  have ha : s.animated = expectedCount cfg := by
    rw [hp] at g6
    simpa using g6
  refine ⟨?_, ?_, ?_, ?_⟩
  · rw [g8]
    simp [ha]
  · rw [g9]
    simp [ha]
  · rw [g12]
    simp [ha]
  · intro hnf
    rw [g11, hnf]
    simp [ha]

/-- Witness for C10: under cfgNB (noBackdrop), the single appear-completion
signal from the show-on-mount initial state reaches the fully opened state
with onOpen run once and beforeOpen and the scroll lock never run. -/
theorem C10_show_on_mount_witness :
    ReachVia cfgNB (fun e => ¬e = Ev.update false) (constructorState cfgNB true) sDoneNB
    ∧ (sDoneNB.beforeOpenRuns = 0 ∧ sDoneNB.scrollLocked = false
        ∧ sDoneNB.onOpenRuns = 1 ∧ sDoneNB.registered = true) := by
  have he : ¬Ev.sigOpen = Ev.update false := by decide
  have hstep : step cfgNB (constructorState cfgNB true) Ev.sigOpen = some sDoneNB := by decide
  have hr : ReachVia cfgNB (fun e => ¬e = Ev.update false) (constructorState cfgNB true) sDoneNB :=
    ReachVia.tail ReachVia.refl he hstep
  have hc := C10_show_on_mount cfgNB sDoneNB hr
  exact ⟨hr, hc.2.2.1, hc.2.2.2.1, (hc.2.2.2.2.2 (by decide)).2.2.1, (hc.2.2.2.2.2 (by decide)).1⟩

end ReactModal
